import Mathlib

/-!
Shallow embedding of `app.py` from the Interview Transcript Analyzer
repository, together with proofs about the extraction, prompt-building,
generation and display logic.

Modelling conventions:
* The external Gemini generation call (`model.generate_content`) is an
  opaque collaborator, passed in as a function `String → GenResult` that
  either succeeds with the returned text or fails (Python: raises).
* Streamlit side effects (`st.error`, `st.expander`/`st.text` preview,
  `st.write` of the report) are modelled as an explicit event trace
  (`List Event`) produced by the orchestration function.
* The PyPDF2 and python-docx low-level parsers are opaque collaborators,
  passed in as functions from the raw bytes to either the list of page
  texts / paragraph texts, or a failure (Python: an exception).
* Python's strict `bytes.decode('utf-8')` is embedded as an executable
  UTF-8 decoder on `List Nat` byte values (rejecting overlong forms,
  surrogates and code points above 0x10FFFF, as CPython does).
* Python strings are Lean `String`s; slicing `s[:1000]`, `len`, `' '.join`
  and f-string interpolation translate to `String.take`, `String.length`,
  `String.intercalate " "` and `++`.
-/

namespace InterviewAnalyzer

set_option maxRecDepth 40000

/-- Outcome of the opaque external generation call: `success t` models
`model.generate_content(prompt)` returning a response with `.text = t`;
`failure e` models the call raising an exception with message `e`. -/
inductive GenResult where
  | success (text : String)
  | failure (err : String)
deriving DecidableEq

/-- The `Dict[str, str]` returned by `generate_interview_summary`: a mapping
with exactly the one key `"summary"`. -/
structure SummaryResult where
  summary : String
deriving DecidableEq

/-- User-visible side effects of the Streamlit app, in emission order. -/
inductive Event where
  | errorShown (msg : String)
  | previewShown (text : String)
  | generationCalled (prompt : String)
  | reportShown (text : String)
deriving DecidableEq

/-- The fixed part of the f-string prompt template before the
`{transcript_text}` placeholder (app.py lines 40-73), verbatim, including
the newline that precedes the placeholder. -/
def promptPre : String := "Analyze the following interview transcript and provide a comprehensive, structured summary with the following sections:

1. Interview Overview
   - Candidate Name (if mentioned)
   - Position/Role Applied For
   - Interview Type (Technical, Behavioral, etc.)

2. Candidate Background
   - Key Professional Experiences
   - Educational Qualifications
   - Relevant Skills Highlighted

3. Interview Highlights
   - Significant Discussion Points
   - Technical or Role-Specific Questions and Answers
   - Candidate's Strengths
   - Areas of Potential Development

4. Interview Tone and Communication
   - Candidate's Communication Style
   - Confidence Level
   - Depth of Responses

5. Interviewer's Perspective
   - Key Observations
   - Potential Fit for the Role
   - Notable Reactions or Comments

6. Key Takeaways
   - Overall Impression
   - Recommendation or Next Steps

Transcript:
"

/-- The fixed part of the f-string prompt template after the
`{transcript_text}` placeholder (app.py lines 73-75), verbatim. -/
def promptSuf : String := "

Provide insights and observations based on the conversation, maintaining objectivity and focusing on professional assessment."

/-- The prompt built by f-string interpolation in
`generate_interview_summary` (app.py lines 40-75): the fixed template with
the transcript text substituted at the single placeholder. -/
def build_prompt (transcript_text : String) : String :=
  promptPre ++ transcript_text ++ promptSuf

/-- `generate_interview_summary` (app.py lines 26-85): builds the prompt,
issues the external generation call, and
* on success returns `{"summary": response.text}`;
* on any exception catches it, shows `st.error(...)` and returns the fixed
  fallback `{"summary": "Could not generate summary."}`.
The returned event list records the call itself and any error notification;
the function is total, so no failure ever escapes to the caller. -/
def generate_interview_summary (genCall : String → GenResult)
    (transcript_text : String) : SummaryResult × List Event :=
  let prompt := build_prompt transcript_text
  match genCall prompt with
  | GenResult.success t =>
      ({ summary := t }, [Event.generationCalled prompt])
  | GenResult.failure e =>
      ({ summary := "Could not generate summary." },
       [Event.generationCalled prompt,
        Event.errorShown ("Error generating summary: " ++ e)])

/-- One step of strict UTF-8 decoding, byte structural.  `needed` is the
number of continuation bytes still expected (0 = at a lead byte), `cp` the
code point accumulated so far, and `lo`/`hi` the admissible range of the
next continuation byte (this is how the E0/ED/F0/F4 special ranges that
exclude overlong forms, surrogates and values above 0x10FFFF are encoded).
Mirrors CPython's strict `bytes.decode('utf-8')` acceptance. -/
def utf8Go : Nat → Nat → Nat → Nat → List Nat → Option (List Nat)
  | needed, _, _, _, [] => if needed = 0 then some [] else none
  | needed, cp, lo, hi, b :: rest =>
    if needed = 0 then
      if b ≤ 127 then (utf8Go 0 0 0 0 rest).map (fun cps => b :: cps)
      else if 194 ≤ b ∧ b ≤ 223 then utf8Go 1 (b - 192) 128 191 rest
      else if b = 224 then utf8Go 2 0 160 191 rest
      else if 225 ≤ b ∧ b ≤ 236 then utf8Go 2 (b - 224) 128 191 rest
      else if b = 237 then utf8Go 2 13 128 159 rest
      else if 238 ≤ b ∧ b ≤ 239 then utf8Go 2 (b - 224) 128 191 rest
      else if b = 240 then utf8Go 3 0 144 191 rest
      else if 241 ≤ b ∧ b ≤ 243 then utf8Go 3 (b - 240) 128 191 rest
      else if b = 244 then utf8Go 3 4 128 143 rest
      else none
    else if lo ≤ b ∧ b ≤ hi then
      if needed = 1 then
        (utf8Go 0 0 0 0 rest).map (fun cps => (cp * 64 + (b - 128)) :: cps)
      else utf8Go (needed - 1) (cp * 64 + (b - 128)) 128 191 rest
    else none

/-- Strict UTF-8 decoding of a byte buffer to a character list, `none` when
the bytes are not valid UTF-8 (Python: `UnicodeDecodeError`). -/
def utf8DecodeChars (bytes : List Nat) : Option (List Char) :=
  (utf8Go 0 0 0 0 bytes).map (fun cps => cps.map Char.ofNat)

/-- The content-type label Streamlit reports for PDF uploads, compared
against in app.py line 109. -/
def pdfMime : String := "application/pdf"

/-- The content-type label Streamlit reports for .docx uploads, compared
against in app.py line 113. -/
def docxMime : String := "application/vnd.openxmlformats-officedocument.wordprocessingml.document"

/-- An uploaded file: its declared content type and raw byte buffer. -/
structure UploadedFile where
  type : String
  bytes : List Nat
deriving DecidableEq

/-- The ways the extraction block (app.py lines 108-119) can raise. -/
inductive ExtractError where
  | invalidEncoding
  | pdfError (msg : String)
  | docxError (msg : String)
deriving DecidableEq

/-- The text-extraction logic of `main` (app.py lines 108-119): branch on the
declared content type; PDF pages and docx paragraphs (obtained from opaque
parsers `pdfParse` / `docxParse`) are joined by `' '.join`; any other type
is decoded as UTF-8 plain text. -/
def extract (pdfParse : List Nat → Except String (List String))
    (docxParse : List Nat → Except String (List String))
    (file : UploadedFile) : Except ExtractError String :=
  if file.type = pdfMime then
    match pdfParse file.bytes with
    | Except.ok pages => Except.ok (String.intercalate " " pages)
    | Except.error e => Except.error (ExtractError.pdfError e)
  else if file.type = docxMime then
    match docxParse file.bytes with
    | Except.ok paras => Except.ok (String.intercalate " " paras)
    | Except.error e => Except.error (ExtractError.docxError e)
  else
    match utf8DecodeChars file.bytes with
    | some cs => Except.ok (String.mk cs)
    | none => Except.error ExtractError.invalidEncoding

/-- The transcript preview shown in the expander (app.py line 123):
`transcript_text[:1000] + "..." if len(transcript_text) > 1000 else
transcript_text`. -/
def preview_of (transcript_text : String) : String :=
  if transcript_text.length > 1000 then transcript_text.take 1000 ++ "..."
  else transcript_text

/-- The `st.error(f"Error processing file: {str(e)}")` message of the except
branch (app.py line 136), with representative `str(e)` texts for the three
exception sources. -/
def errMsg : ExtractError → String
  | ExtractError.invalidEncoding =>
      "Error processing file: invalid UTF-8 byte sequence"
  | ExtractError.pdfError e => "Error processing file: " ++ e
  | ExtractError.docxError e => "Error processing file: " ++ e

/-- The per-upload flow of `main` (app.py lines 105-136): try extraction;
if it raises, show the error and stop; otherwise show the preview, run
`generate_interview_summary` (which never raises) and render the report. -/
def main_process (pdfParse : List Nat → Except String (List String))
    (docxParse : List Nat → Except String (List String))
    (genCall : String → GenResult) (file : UploadedFile) : List Event :=
  match extract pdfParse docxParse file with
  | Except.error e => [Event.errorShown (errMsg e)]
  | Except.ok transcript_text =>
      let g := generate_interview_summary genCall transcript_text
      Event.previewShown (preview_of transcript_text)
        :: (g.2 ++ [Event.reportShown g.1.summary])

/-- Number of positions of `s` at which `pat` occurs as a contiguous
substring (occurrences may overlap). -/
def occCount (pat : List Char) : List Char → Nat
  | [] => if pat.isPrefixOf ([] : List Char) then 1 else 0
  | c :: rest =>
      (if pat.isPrefixOf (c :: rest) then 1 else 0) + occCount pat rest

/-- Parser stub for branches a test never takes. -/
def stubParse : List Nat → Except String (List String) :=
  fun _ => Except.error "unused"

/-- Generation-call stub that always succeeds with a fixed text. -/
def genStub : String → GenResult :=
  fun _ => GenResult.success "MOCK_SUMMARY"

/-- Generation-call stub that always fails. -/
def genFail : String → GenResult :=
  fun _ => GenResult.failure "quota exceeded"

/-- A 1500-character transcript, the spec's long-preview example. -/
def bigText : String := String.mk (List.replicate 1500 'a')

/-- A plain-text upload whose bytes decode to `bigText`. -/
def bigFile : UploadedFile :=
  { type := "text/plain", bytes := List.replicate 1500 97 }

/-- A transcript of length exactly 1000, the preview boundary. -/
def borderText : String := String.mk (List.replicate 1000 'a')

/-- A small valid-UTF-8 plain-text upload (`"Heé"`). -/
def heFile : UploadedFile := { type := "text/plain", bytes := [72, 101, 195, 169] }

/-- A plain-text upload whose single byte 255 is not valid UTF-8. -/
def badFile : UploadedFile := { type := "text/plain", bytes := [255] }

/-- An upload declared as PDF (bytes irrelevant to the stubs below). -/
def pdfFile : UploadedFile := { type := "application/pdf", bytes := [37, 80] }

/-- An upload declared as a word-processor document. -/
def docxFile : UploadedFile :=
  { type := "application/vnd.openxmlformats-officedocument.wordprocessingml.document",
    bytes := [80, 75] }

/-- PDF parser stub returning three pages, the middle one empty. -/
def pdfPagesStub : List Nat → Except String (List String) :=
  fun _ => Except.ok ["First page", "", "Third page"]

/-- PDF parser stub that fails, modelling corrupted PDF bytes. -/
def pdfCorrupt : List Nat → Except String (List String) :=
  fun _ => Except.error "EOF marker not found"

/-- docx parser stub returning three paragraphs, the middle one empty. -/
def docxParasStub : List Nat → Except String (List String) :=
  fun _ => Except.ok ["Intro", "", "Closing"]

/-! Helper lemmas about `occCount`. -/

theorem occCount_pos_of_isPrefixOf {pat l : List Char}
    (h : pat.isPrefixOf l = true) : 1 ≤ occCount pat l := by
  cases l with
  | nil => simp [occCount, h]
  | cons c rest => simp [occCount, h]

theorem occCount_append_left {pat l₁ : List Char} (l₂ : List Char)
    (h : 1 ≤ occCount pat l₁) : 1 ≤ occCount pat (l₁ ++ l₂) := by
  induction l₁ with
  | nil =>
      have hp : pat.isPrefixOf ([] : List Char) = true := by
        by_contra hc
        simp [occCount, hc] at h
      have hnil : pat = [] := by
        simpa using List.isPrefixOf_iff_prefix.mp hp
      subst hnil
      exact occCount_pos_of_isPrefixOf (by simp)
  | cons c rest ih =>
      by_cases hp : pat.isPrefixOf (c :: rest) = true
      · have hp' : pat.isPrefixOf (c :: rest ++ l₂) = true :=
          List.isPrefixOf_iff_prefix.mpr
            ((List.isPrefixOf_iff_prefix.mp hp).trans (List.prefix_append _ _))
        exact occCount_pos_of_isPrefixOf hp'
      · have h' : 1 ≤ occCount pat rest := by
          simp [occCount, hp] at h
          omega
        have := ih h'
        simp only [List.cons_append, occCount, List.append_eq]
        omega

theorem occCount_append_right {pat : List Char} (l₁ : List Char) {l₂ : List Char}
    (h : 1 ≤ occCount pat l₂) : 1 ≤ occCount pat (l₁ ++ l₂) := by
  induction l₁ with
  | nil => simpa using h
  | cons c rest ih =>
      simp only [List.cons_append, occCount, List.append_eq]
      omega

theorem occCount_self_append (pat l : List Char) :
    1 ≤ occCount pat (pat ++ l) :=
  occCount_pos_of_isPrefixOf
    (List.isPrefixOf_iff_prefix.mpr (List.prefix_append _ _))

/-- Shared evaluation fact: decoding the 1500 `'a'`-bytes buffer. -/
theorem utf8Go_replicate_97 (n : Nat) :
    utf8Go 0 0 0 0 (List.replicate n 97) = some (List.replicate n 97) := by
  induction n with
  | zero => rfl
  | succ m ih =>
      have step : ∀ l : List Nat,
          utf8Go 0 0 0 0 (97 :: l) = (utf8Go 0 0 0 0 l).map (fun cps => 97 :: cps) :=
        fun l => rfl
      rw [List.replicate_succ, step, ih]
      rfl

/-- Shared evaluation fact: extracting the 1500-character plain-text upload. -/
theorem extract_bigFile : extract stubParse stubParse bigFile = Except.ok bigText := by
  have h3 : utf8DecodeChars bigFile.bytes = some bigText.data := by
    show utf8DecodeChars (List.replicate 1500 97) = some (List.replicate 1500 'a')
    rw [utf8DecodeChars, utf8Go_replicate_97]
    simp [List.map_replicate]
  have h1 : ¬ bigFile.type = pdfMime := by decide
  have h2 : ¬ bigFile.type = docxMime := by decide
  simp [extract, h1, h2, h3]

/-! The claims. -/

/-- C1: if the external generation call fails for any reason,
`generate_interview_summary` returns exactly `{"summary": "Could not
generate summary."}` and never propagates the failure to the caller's
control flow — it only emits the generation-call event and a user-visible
error notification as side effects. -/
theorem generate_summary_failure_fallback (genCall : String → GenResult)
    (t e : String) (h : genCall (build_prompt t) = GenResult.failure e) :
    generate_interview_summary genCall t =
      ({ summary := "Could not generate summary." },
       [Event.generationCalled (build_prompt t),
        Event.errorShown ("Error generating summary: " ++ e)]) := by
  simp [generate_interview_summary, h]

/-- C1 witness: a concrete always-failing generation call produces the
fixed fallback mapping. -/
theorem generate_summary_failure_fallback_witness :
    genFail (build_prompt "transcript") = GenResult.failure "quota exceeded" ∧
    (generate_interview_summary genFail "transcript").1.summary =
      "Could not generate summary." := by
  have h := generate_summary_failure_fallback genFail "transcript" "quota exceeded" rfl
  exact ⟨rfl, by rw [h]⟩

/-- C2: if the external generation call succeeds returning string `R`,
`generate_interview_summary` returns exactly `{"summary": R}` with `R`
unchanged, and emits no error notification. -/
theorem generate_summary_success_verbatim (genCall : String → GenResult)
    (t R : String) (h : genCall (build_prompt t) = GenResult.success R) :
    generate_interview_summary genCall t =
      ({ summary := R }, [Event.generationCalled (build_prompt t)]) := by
  simp [generate_interview_summary, h]

/-- C2 witness: a concrete stubbed success returns the mock summary
verbatim. -/
theorem generate_summary_success_verbatim_witness :
    genStub (build_prompt "Q: Tell me about yourself. A: I am a backend engineer with 5 years experience.") =
      GenResult.success "MOCK_SUMMARY" ∧
    (generate_interview_summary genStub "Q: Tell me about yourself. A: I am a backend engineer with 5 years experience.").1.summary =
      "MOCK_SUMMARY" := by
  have h := generate_summary_success_verbatim genStub
    "Q: Tell me about yourself. A: I am a backend engineer with 5 years experience."
    "MOCK_SUMMARY" rfl
  exact ⟨rfl, by rw [h]⟩

/-- C3 counterexample: the claim that `build_prompt text` contains `text`
as a contiguous substring exactly once fails at `text = "1"`: the inserted
text also occurs inside the fixed template (section numbering), so it
occurs twice. -/
theorem build_prompt_text_exactly_once_false :
    ¬ occCount "1".data (build_prompt "1").data = 1 := by decide

/-- C3 (amended): `build_prompt text` contains each of the six fixed
section headers verbatim, and contains `text` as a contiguous substring at
least once (not necessarily exactly once, since `text` may also occur
inside the fixed template). -/
theorem build_prompt_contains_headers_and_text (text : String) :
    1 ≤ occCount "Interview Overview".data (build_prompt text).data ∧
    1 ≤ occCount "Candidate Background".data (build_prompt text).data ∧
    1 ≤ occCount "Interview Highlights".data (build_prompt text).data ∧
    1 ≤ occCount "Interview Tone and Communication".data (build_prompt text).data ∧
    1 ≤ occCount "Interviewer's Perspective".data (build_prompt text).data ∧
    1 ≤ occCount "Key Takeaways".data (build_prompt text).data ∧
    1 ≤ occCount text.data (build_prompt text).data := by
  have hd : (build_prompt text).data = promptPre.data ++ (text.data ++ promptSuf.data) := rfl
  refine ⟨?_, ?_, ?_, ?_, ?_, ?_, ?_⟩ <;> rw [hd]
  · exact occCount_append_left _ (by decide)
  · exact occCount_append_left _ (by decide)
  · exact occCount_append_left _ (by decide)
  · exact occCount_append_left _ (by decide)
  · exact occCount_append_left _ (by decide)
  · exact occCount_append_left _ (by decide)
  · exact occCount_append_right _ (occCount_self_append _ _)

/-- C4: for an upload whose declared content type is neither the PDF nor
the word-processor label, and whose bytes are valid UTF-8, `extract`
returns exactly the decoded string, unmodified. -/
theorem extract_text_valid_utf8 (pdfP docxP : List Nat → Except String (List String))
    (file : UploadedFile) (cs : List Char)
    (h1 : file.type ≠ pdfMime) (h2 : file.type ≠ docxMime)
    (h3 : utf8DecodeChars file.bytes = some cs) :
    extract pdfP docxP file = Except.ok (String.mk cs) := by
  simp [extract, h1, h2, h3]

/-- C4 witness: the concrete plain-text upload `[72, 101, 195, 169]`
decodes to `"Heé"` and is returned unmodified. -/
theorem extract_text_valid_utf8_witness :
    heFile.type ≠ pdfMime ∧ heFile.type ≠ docxMime ∧
    utf8DecodeChars heFile.bytes = some ['H', 'e', 'é'] ∧
    extract stubParse stubParse heFile = Except.ok "Heé" := by
  have h := extract_text_valid_utf8 stubParse stubParse heFile ['H', 'e', 'é']
    (by decide) (by decide) (by decide)
  exact ⟨by decide, by decide, by decide, h⟩

/-- C5: for an upload whose declared content type is neither the PDF nor
the word-processor label, and whose bytes are not valid UTF-8, `extract`
fails with `invalidEncoding`; the failure is not locally recovered and the
per-upload flow surfaces it as a user-visible error. -/
theorem extract_text_invalid_utf8 (pdfP docxP : List Nat → Except String (List String))
    (gc : String → GenResult) (file : UploadedFile)
    (h1 : file.type ≠ pdfMime) (h2 : file.type ≠ docxMime)
    (h3 : utf8DecodeChars file.bytes = none) :
    extract pdfP docxP file = Except.error ExtractError.invalidEncoding ∧
    main_process pdfP docxP gc file =
      [Event.errorShown (errMsg ExtractError.invalidEncoding)] := by
  have hx : extract pdfP docxP file = Except.error ExtractError.invalidEncoding := by
    simp [extract, h1, h2, h3]
  exact ⟨hx, by simp [main_process, hx]⟩

/-- C5 witness: the single byte 255 with content type `text/plain` fails
with `invalidEncoding` and the flow shows the error. -/
theorem extract_text_invalid_utf8_witness :
    badFile.type ≠ pdfMime ∧ badFile.type ≠ docxMime ∧
    utf8DecodeChars badFile.bytes = none ∧
    extract stubParse stubParse badFile = Except.error ExtractError.invalidEncoding ∧
    main_process stubParse stubParse genStub badFile =
      [Event.errorShown (errMsg ExtractError.invalidEncoding)] := by
  have h := extract_text_invalid_utf8 stubParse stubParse genStub badFile
    (by decide) (by decide) (by decide)
  exact ⟨by decide, by decide, by decide, h.1, h.2⟩

/-- C6: for a PDF upload whose low-level parse succeeds with the page
texts in page order, `extract` returns them joined by a single space; an
empty page contributes an empty segment rather than an error. -/
theorem extract_pdf_joins_pages (pdfP docxP : List Nat → Except String (List String))
    (file : UploadedFile) (pages : List String)
    (h1 : file.type = pdfMime) (h2 : pdfP file.bytes = Except.ok pages) :
    extract pdfP docxP file = Except.ok (String.intercalate " " pages) := by
  simp [extract, h1, h2]

/-- C6 witness: three pages with an empty middle page join to
`"First page  Third page"` (two spaces around the empty segment). -/
theorem extract_pdf_joins_pages_witness :
    pdfFile.type = pdfMime ∧
    pdfPagesStub pdfFile.bytes = Except.ok ["First page", "", "Third page"] ∧
    extract pdfPagesStub stubParse pdfFile = Except.ok "First page  Third page" := by
  have h := extract_pdf_joins_pages pdfPagesStub stubParse pdfFile
    ["First page", "", "Third page"] rfl rfl
  exact ⟨rfl, rfl, h⟩

/-- C7: for a word-processor upload whose low-level parse succeeds with
the paragraph texts in document order, `extract` returns them joined by a
single space; empty paragraphs contribute empty segments. -/
theorem extract_docx_joins_paragraphs (pdfP docxP : List Nat → Except String (List String))
    (file : UploadedFile) (paras : List String)
    (h1 : file.type = docxMime)
    (h3 : docxP file.bytes = Except.ok paras) :
    extract pdfP docxP file = Except.ok (String.intercalate " " paras) := by
  have hpd : docxMime ≠ pdfMime := by decide
  simp [extract, h1, hpd, h3]

/-- C7 witness: three paragraphs with an empty middle one join to
`"Intro  Closing"`. -/
theorem extract_docx_joins_paragraphs_witness :
    docxFile.type = docxMime ∧
    docxParasStub docxFile.bytes = Except.ok ["Intro", "", "Closing"] ∧
    extract stubParse docxParasStub docxFile = Except.ok "Intro  Closing" := by
  have h := extract_docx_joins_paragraphs stubParse docxParasStub docxFile
    ["Intro", "", "Closing"] rfl rfl
  exact ⟨rfl, rfl, h⟩

/-- C8: when extraction succeeds with text `t`, the flow displays the
preview of `t`; that preview is the first 1000 characters followed by
`"..."` when `t` is longer than 1000 characters, and `t` itself verbatim
when `t` is under 1000 characters. -/
theorem preview_truncation (pdfP docxP : List Nat → Except String (List String))
    (gc : String → GenResult) (file : UploadedFile) (t : String)
    (hx : extract pdfP docxP file = Except.ok t) :
    Event.previewShown (preview_of t) ∈ main_process pdfP docxP gc file ∧
    (1000 < t.length → preview_of t = t.take 1000 ++ "...") ∧
    (t.length < 1000 → preview_of t = t) := by
  refine ⟨?_, ?_, ?_⟩
  · simp [main_process, hx]
  · intro h
    simp [preview_of, h]
  · intro h
    have h' : ¬ t.length > 1000 := by omega
    simp [preview_of, h']

/-- C8 witness: the 1500-character plain-text upload is extracted, its
preview is displayed, and the preview is the first 1000 characters plus
the ellipsis marker. -/
theorem preview_truncation_witness :
    extract stubParse stubParse bigFile = Except.ok bigText ∧
    1000 < bigText.length ∧
    Event.previewShown (preview_of bigText) ∈
      main_process stubParse stubParse genStub bigFile ∧
    preview_of bigText = bigText.take 1000 ++ "..." := by
  have h := preview_truncation stubParse stubParse genStub bigFile bigText extract_bigFile
  have hlen : 1000 < bigText.length := by
    simp [bigText, String.length]
  exact ⟨extract_bigFile, hlen, h.1, h.2.1 hlen⟩

/-- C9: when extraction fails, the flow shows a user-visible error and
halts for that upload: the event trace is exactly the error message, so no
prompt is built, no generation call is made and no report is rendered. -/
theorem extraction_failure_halts (pdfP docxP : List Nat → Except String (List String))
    (gc : String → GenResult) (file : UploadedFile) (e : ExtractError)
    (hx : extract pdfP docxP file = Except.error e) :
    main_process pdfP docxP gc file = [Event.errorShown (errMsg e)] ∧
    (∀ p, Event.generationCalled p ∉ main_process pdfP docxP gc file) ∧
    (∀ r, Event.reportShown r ∉ main_process pdfP docxP gc file) := by
  have hm : main_process pdfP docxP gc file = [Event.errorShown (errMsg e)] := by
    simp [main_process, hx]
  refine ⟨hm, ?_, ?_⟩ <;> intro x <;> rw [hm] <;> simp

/-- C9 witness: a PDF-typed upload whose parser fails (corrupted bytes)
produces only the error event, and in particular no generation call. -/
theorem extraction_failure_halts_witness :
    extract pdfCorrupt stubParse pdfFile =
      Except.error (ExtractError.pdfError "EOF marker not found") ∧
    main_process pdfCorrupt stubParse genStub pdfFile =
      [Event.errorShown (errMsg (ExtractError.pdfError "EOF marker not found"))] ∧
    Event.generationCalled (build_prompt "anything") ∉
      main_process pdfCorrupt stubParse genStub pdfFile := by
  have h := extraction_failure_halts pdfCorrupt stubParse genStub pdfFile
    (ExtractError.pdfError "EOF marker not found") rfl
  exact ⟨rfl, h.1, h.2.1 _⟩

/-- C10: at the boundary, a transcript of length exactly 1000 characters
is previewed in full with no ellipsis marker: the truncation condition of
app.py line 123 is strictly greater than 1000. -/
theorem preview_boundary_1000 (t : String) (h : t.length = 1000) :
    preview_of t = t := by
  have h' : ¬ t.length > 1000 := by omega
  simp [preview_of, h']

/-- C10 witness: the concrete 1000-character transcript is shown in full. -/
theorem preview_boundary_1000_witness :
    borderText.length = 1000 ∧ preview_of borderText = borderText := by
  have hlen : borderText.length = 1000 := by
    simp [borderText, String.length]
  exact ⟨hlen, preview_boundary_1000 borderText hlen⟩

end InterviewAnalyzer
